import Mathlib

/-!
Shallow embedding of the churn-prediction inference service
(`src/apps/main.py`) for verification of its specification.

Modelling conventions:
* Python `int` fields become `ℤ`, `float` fields become `ℚ` (real-valued
  arithmetic; the service performs only a handful of exactly-representable
  operations per request).
* The four module-level globals `model`, `scaler`, `feature_columns`,
  `label_encoders` become a `GlobalState` record of `Option`s
  (`None` ↦ `none`).
* A fitted sklearn `LabelEncoder` is modelled by its value→code mapping,
  an association list; `transform` on an unknown value raises, hence
  returns `Option`.
* A fitted `StandardScaler` is modelled by its per-column (mean, scale)
  pairs; `transform` raises on a feature-count mismatch, hence returns
  `Except`.
* The model object is opaque: a label predictor and a two-class
  probability predictor over the feature vector.
* Fallible code returns `Except String α`; the string stands for the
  logged/propagated error detail.
-/

namespace Churn

/-- The validated request body `CustomerData` (pydantic model,
`src/apps/main.py` lines 23-51).  Optional fields carry the model's
defaults. -/
structure CustomerData where
  tenure : ℤ
  monthly_charges : ℚ
  total_charges : ℚ
  contract_type : String
  payment_method : String
  internet_service : String := "No"
  online_security : String := "No"
  tech_support : String := "No"
  streaming_tv : String := "No"
  customer_service_calls : ℤ := 0
deriving DecidableEq

/-- The three pydantic validators (lines 35-51): tenure, monthly_charges
and total_charges must be nonnegative. -/
def CustomerData.validated (c : CustomerData) : Prop :=
  0 ≤ c.tenure ∧ 0 ≤ c.monthly_charges ∧ 0 ≤ c.total_charges

instance (c : CustomerData) : Decidable c.validated := by
  unfold CustomerData.validated; infer_instance

/-- Opaque classifier: label prediction and two-class probability output
on a single feature row (`model.predict(...)[0]`,
`model.predict_proba(...)[0]`). -/
structure Model where
  predictLabel : List ℚ → ℤ
  predictProba : List ℚ → ℚ × ℚ

/-- A fitted label encoder: the value→code mapping learned at fit time.
`transform` of a value outside the mapping raises in sklearn, so lookup
yields `Option`. -/
def Encoder : Type := List (String × ℚ)

/-- Embeds `LabelEncoder.transform([v])[0]`: `some code` on a known value,
`none` (exception) otherwise. -/
def Encoder.transform (e : Encoder) (v : String) : Option ℚ :=
  List.lookup v e

/-- The `label_encoders` dict saved by the training side
(`src/scripts/train_model.py` lines 202-207): keys
contract / payment / internet. -/
structure LabelEncoders where
  contract : Encoder
  payment : Encoder
  internet : Encoder

/-- A fitted `StandardScaler`: per-column (mean, scale). -/
def Scaler : Type := List (ℚ × ℚ)

/-- Embeds `scaler.transform`: element-wise (x − mean)/scale; raises on a
feature-count mismatch. -/
def Scaler.transform (sc : Scaler) (v : List ℚ) : Except String (List ℚ) :=
  if sc.length = v.length then
    .ok (List.zipWith (fun p x => (x - p.1) / p.2) sc v)
  else
    .error "feature count mismatch"

/-- The four module-level globals of `src/apps/main.py` (lines 60-63). -/
structure GlobalState where
  model : Option Model
  scaler : Option Scaler
  feature_columns : Option (List String)
  label_encoders : Option LabelEncoders

/-- All four globals start as `None`. -/
def initialState : GlobalState :=
  { model := none, scaler := none, feature_columns := none,
    label_encoders := none }

/-- The nine entries put into the `features` dict first
(`prepare_features`, lines 97-107). -/
def baseFeatures (c : CustomerData) : List (String × ℚ) :=
  [("tenure", (c.tenure : ℚ)),
   ("monthly_charges", c.monthly_charges),
   ("total_charges", c.total_charges),
   ("customer_service_calls", (c.customer_service_calls : ℚ)),
   ("is_month_to_month", if c.contract_type = "Month-to-month" then 1 else 0),
   ("is_electronic_check", if c.payment_method = "Electronic check" then 1 else 0),
   ("has_internet", if c.internet_service ≠ "No" then 1 else 0),
   ("tenure_monthly_ratio",
     if 0 < c.monthly_charges then (c.tenure : ℚ) / c.monthly_charges else 0),
   ("total_monthly_ratio",
     if 0 < c.monthly_charges then c.total_charges / c.monthly_charges else 0)]

/-- The fallback table `contract_mapping` (line 116). -/
def contract_mapping : List (String × ℚ) :=
  [("Month-to-month", 0), ("One year", 1), ("Two year", 2)]

/-- The fallback table `payment_mapping` (line 117). -/
def payment_mapping : List (String × ℚ) :=
  [("Electronic check", 0), ("Mailed check", 1), ("Bank transfer", 2),
   ("Credit card", 3)]

/-- The fallback table `internet_mapping` (line 118). -/
def internet_mapping : List (String × ℚ) :=
  [("No", 0), ("DSL", 1), ("Fiber optic", 2)]

/-- The three `*_encoded` entries (lines 109-122): encoder-backed when
`label_encoders` is populated (a hard failure on an unknown value),
otherwise the fallback tables with `.get(x, 0)` defaulting. -/
def encodedFeatures (le? : Option LabelEncoders) (c : CustomerData) :
    Except String (List (String × ℚ)) :=
  match le? with
  | some le =>
    match le.contract.transform c.contract_type,
          le.payment.transform c.payment_method,
          le.internet.transform c.internet_service with
    | some kc, some kp, some ki =>
      .ok [("contract_encoded", kc), ("payment_encoded", kp),
           ("internet_encoded", ki)]
    | _, _, _ => .error "Feature preparation error: unseen label"
  | none =>
    .ok [("contract_encoded", (List.lookup c.contract_type contract_mapping).getD 0),
         ("payment_encoded", (List.lookup c.payment_method payment_mapping).getD 0),
         ("internet_encoded", (List.lookup c.internet_service internet_mapping).getD 0)]

/-- The complete `features` dict (lines 97-122): the nine base entries
plus the three encoded entries. -/
def features_map (st : GlobalState) (c : CustomerData) :
    Except String (List (String × ℚ)) :=
  (encodedFeatures st.label_encoders c).map (fun enc => baseFeatures c ++ enc)

/-- Looks up `features[col]` for each requested column, in order; a missing key
raises (KeyError), hence `Except`. -/
def lookupAll (features : List (String × ℚ)) :
    List String → Except String (List ℚ)
  | [] => .ok []
  | n :: ns =>
    match List.lookup n features with
    | none => .error ("Feature preparation error: KeyError " ++ n)
    | some x =>
      match lookupAll features ns with
      | .error e => .error e
      | .ok xs => .ok (x :: xs)

/-- The fallback feature order (lines 129-135), written out
explicitly in the source. -/
def fallbackOrder : List String :=
  ["tenure", "monthly_charges", "total_charges", "customer_service_calls",
   "is_month_to_month", "is_electronic_check", "has_internet",
   "tenure_monthly_ratio", "total_monthly_ratio",
   "contract_encoded", "payment_encoded", "internet_encoded"]

/-- Embeds `prepare_features` (lines 93-145): build the features dict, order it
by `feature_columns` when that global is truthy (non-`None` and
non-empty) else by the fallback order, then scale when a scaler is
loaded.  Any failure surfaces as a feature-preparation error. -/
def prepare_features (st : GlobalState) (c : CustomerData) :
    Except String (List ℚ) :=
  match features_map st c with
  | .error e => .error e
  | .ok features =>
    let ordered :=
      match st.feature_columns with
      | some cols =>
        if cols.isEmpty then lookupAll features fallbackOrder
        else lookupAll features cols
      | none => lookupAll features fallbackOrder
    match ordered with
    | .error e => .error e
    | .ok arr =>
      match st.scaler with
      | some sc => Scaler.transform sc arr
      | none => .ok arr

/-- The response model `PredictionResponse` (lines 53-57). -/
structure PredictionResponse where
  churn_prediction : Bool
  churn_probability : ℚ
  confidence : ℚ
  model_version : String
deriving DecidableEq

/-- The `/predict` handler `predict_churn` (lines 153-176): reject when
no model is loaded, else build features, invoke the model, and assemble
the response.  `bool(prediction)` is nonzero-is-true; probability is
index 1 of the two-class output; confidence is the max of the two. -/
def predict_churn (st : GlobalState) (c : CustomerData) :
    Except String PredictionResponse :=
  match st.model with
  | none => .error "Model not loaded"
  | some m =>
    match prepare_features st c with
    | .error e => .error e
    | .ok features =>
      let prediction := m.predictLabel features
      let probability := m.predictProba features
      .ok { churn_prediction := decide (prediction ≠ 0),
            churn_probability := probability.2,
            confidence := max probability.1 probability.2,
            model_version := "1.0.0" }

/-- The `/health` response (lines 178-185).  The model's class name is
opaque here; only its presence matters. -/
structure HealthResponse where
  status : String
  model_loaded : Bool
  model_type : Option String

/-- The `/health` handler `health_check` (lines 178-185). -/
def health_check (st : GlobalState) : HealthResponse :=
  { status := "healthy",
    model_loaded := st.model.isSome,
    model_type := if st.model.isSome then some "classifier" else none }

/-- The unpickled full-layout bundle: a dict whose slots are accessed by
key; a missing key raises at the access. -/
structure Bundle where
  model : Option Model
  scaler : Option Scaler
  feature_columns : Option (List String)
  label_encoders : Option LabelEncoders

/-- The environment `load_model` runs against: whether the full-layout
file exists, the outcome of unpickling it, and the outcome of
unpickling the simple-layout file (a missing file is an error). -/
structure LoadEnv where
  fullExists : Bool
  fullBundle : Except String Bundle
  simpleModel : Except String Model

/-- Embeds `load_model` (lines 65-91): try the full layout first when its file
exists, assigning the four globals one by one from the bundle (an
assignment already made persists when a later key access fails);
otherwise read the simple layout, assigning only `model`.  Every error
is caught and reported as `false`. -/
def load_model (st : GlobalState) (env : LoadEnv) : GlobalState × Bool :=
  if env.fullExists then
    match env.fullBundle with
    | .error _ => (st, false)
    | .ok bd =>
      match bd.model with
      | none => (st, false)
      | some m =>
        let st1 : GlobalState := { st with model := some m }
        match bd.scaler with
        | none => (st1, false)
        | some sc =>
          let st2 : GlobalState := { st1 with scaler := some sc }
          match bd.feature_columns with
          | none => (st2, false)
          | some fc =>
            let st3 : GlobalState := { st2 with feature_columns := some fc }
            match bd.label_encoders with
            | none => (st3, false)
            | some le => ({ st3 with label_encoders := some le }, true)
  else
    match env.simpleModel with
    | .error _ => (st, false)
    | .ok m => ({ st with model := some m }, true)

/-- An outcome of the two load attempts that is an error somewhere. -/
def loadFails (env : LoadEnv) : Bool :=
  if env.fullExists then
    match env.fullBundle with
    | .error _ => true
    | .ok bd =>
      bd.model.isNone || bd.scaler.isNone || bd.feature_columns.isNone ||
        bd.label_encoders.isNone
  else
    match env.simpleModel with
    | .error _ => true
    | .ok _ => false

/-- An outcome that fails before the first global assignment. -/
def failsBeforeAssign (env : LoadEnv) : Bool :=
  if env.fullExists then
    match env.fullBundle with
    | .error _ => true
    | .ok bd => bd.model.isNone
  else
    match env.simpleModel with
    | .error _ => true
    | .ok _ => false

/-- Entry `i` of a feature-vector result, `none` when the computation
failed or the index is out of range. -/
def vecEntry (r : Except String (List ℚ)) (i : ℕ) : Option ℚ :=
  match r with
  | .error _ => none
  | .ok v => v.get? i

/-- The end-to-end sample record of the spec. -/
def sampleCustomer : CustomerData :=
  { tenure := 12, monthly_charges := 50, total_charges := 600,
    contract_type := "Month-to-month", payment_method := "Electronic check",
    internet_service := "DSL", customer_service_calls := 2 }

/-- The deterministic stub model of the spec: label 1,
probabilities (0.3, 0.7). -/
def stubModel : Model :=
  { predictLabel := fun _ => 1,
    predictProba := fun _ => (3/10, 7/10) }

/-- A state holding only the stub model (simple layout). -/
def stubState : GlobalState :=
  { model := some stubModel, scaler := none, feature_columns := none,
    label_encoders := none }

/-- A state carrying the training-side feature order but no scaler and
no encoders. -/
def colsState : GlobalState :=
  { model := none, scaler := none, feature_columns := some fallbackOrder,
    label_encoders := none }

/-- A record hitting the fallback-encoding instance of the spec:
Month-to-month, Electronic check, no internet. -/
def fallbackSample : CustomerData :=
  { tenure := 1, monthly_charges := 30, total_charges := 30,
    contract_type := "Month-to-month", payment_method := "Electronic check",
    internet_service := "No" }

/-- An environment in which both artifact layouts are unreadable. -/
def corruptEnv : LoadEnv :=
  { fullExists := true, fullBundle := .error "unpickling failed",
    simpleModel := .error "file missing" }

/-- A full-layout bundle that carries the model slot but lacks the
scaler slot: the load fails after the first global assignment. -/
def partialEnv : LoadEnv :=
  { fullExists := true,
    fullBundle := .ok
      { model := some stubModel, scaler := none, feature_columns := none,
        label_encoders := none },
    simpleModel := .error "file missing" }

lemma prepare_features_absent (st : GlobalState) (c : CustomerData)
    (h1 : st.scaler = none) (h2 : st.feature_columns = none)
    (h3 : st.label_encoders = none) :
    prepare_features st c = .ok
      [(c.tenure : ℚ), c.monthly_charges, c.total_charges,
       (c.customer_service_calls : ℚ),
       if c.contract_type = "Month-to-month" then 1 else 0,
       if c.payment_method = "Electronic check" then 1 else 0,
       if c.internet_service ≠ "No" then 1 else 0,
       if 0 < c.monthly_charges then (c.tenure : ℚ) / c.monthly_charges else 0,
       if 0 < c.monthly_charges then c.total_charges / c.monthly_charges else 0,
       (List.lookup c.contract_type contract_mapping).getD 0,
       (List.lookup c.payment_method payment_mapping).getD 0,
       (List.lookup c.internet_service internet_mapping).getD 0] := by
  obtain ⟨mo, sc, fc, le⟩ := st
  dsimp at h1 h2 h3
  subst h1; subst h2; subst h3
  rfl

lemma lookupAll_length (features : List (String × ℚ)) :
    ∀ cols v, lookupAll features cols = Except.ok v → v.length = cols.length := by
  intro cols
  induction cols with
  | nil => intro v h; simp [lookupAll] at h; subst h; rfl
  | cons n ns ih =>
    intro v h
    unfold lookupAll at h
    cases hl : List.lookup n features with
    | none => rw [hl] at h; simp at h
    | some x =>
      rw [hl] at h
      cases hr : lookupAll features ns with
      | error e => rw [hr] at h; simp at h
      | ok xs =>
        rw [hr] at h
        simp at h
        subst h
        simp [ih xs hr]

lemma transform_length (sc : Scaler) (v w : List ℚ)
    (h : Scaler.transform sc v = Except.ok w) : w.length = v.length := by
  unfold Scaler.transform at h
  split at h
  · simp at h
    subst h
    simp [List.length_zipWith]
    omega
  · simp at h

lemma features_map_congr (st : GlobalState) (c c' : CustomerData)
    (h1 : c.tenure = c'.tenure)
    (h2 : c.monthly_charges = c'.monthly_charges)
    (h3 : c.total_charges = c'.total_charges)
    (h4 : c.contract_type = c'.contract_type)
    (h5 : c.payment_method = c'.payment_method)
    (h6 : c.internet_service = c'.internet_service)
    (h7 : c.customer_service_calls = c'.customer_service_calls) :
    features_map st c = features_map st c' := by
  unfold features_map encodedFeatures baseFeatures Encoder.transform
  rw [h1, h2, h3, h4, h5, h6, h7]

lemma predict_churn_eq (st : GlobalState) (c : CustomerData) (m : Model)
    (v : List ℚ) (hm : st.model = some m)
    (hv : prepare_features st c = .ok v) :
    predict_churn st c = .ok
      { churn_prediction := decide (m.predictLabel v ≠ 0),
        churn_probability := (m.predictProba v).2,
        confidence := max (m.predictProba v).1 (m.predictProba v).2,
        model_version := "1.0.0" } := by
  unfold predict_churn
  rw [hm, hv]

lemma predict_on_stub :
    predict_churn stubState sampleCustomer = .ok
      { churn_prediction := true, churn_probability := 7/10,
        confidence := 7/10, model_version := "1.0.0" } := by
  obtain ⟨v, hv⟩ : ∃ v, prepare_features stubState sampleCustomer
      = Except.ok v := ⟨_, rfl⟩
  rw [predict_churn_eq stubState sampleCustomer stubModel v rfl hv]
  have hmax : max ((3:ℚ)/10) (7/10) = 7/10 := max_eq_right (by norm_num)
  simp [stubModel, hmax]

/-- C1: for any loaded model and successfully prepared vector, the
inference result has churn equal to the nonzero test of the predicted
label, probability equal to index 1 of the two-class output, confidence
equal to the max of the two class probabilities, and model_version
"1.0.0"; the spec's sample record against the stub model (label 1,
probabilities (0.3, 0.7)) yields (true, 0.7, 0.7, "1.0.0"); and when
both class probabilities lie in [0, 1], so do probability and
confidence. -/
theorem C1_inference (st : GlobalState) (c : CustomerData) (m : Model)
    (v : List ℚ) (hm : st.model = some m)
    (hv : prepare_features st c = .ok v) :
    predict_churn st c = .ok
      { churn_prediction := decide (m.predictLabel v ≠ 0),
        churn_probability := (m.predictProba v).2,
        confidence := max (m.predictProba v).1 (m.predictProba v).2,
        model_version := "1.0.0" } ∧
    predict_churn stubState sampleCustomer = .ok
      { churn_prediction := true, churn_probability := 7/10,
        confidence := 7/10, model_version := "1.0.0" } ∧
    (0 ≤ (m.predictProba v).1 → (m.predictProba v).1 ≤ 1 →
      0 ≤ (m.predictProba v).2 → (m.predictProba v).2 ≤ 1 →
      ∀ r, predict_churn st c = .ok r →
        0 ≤ r.churn_probability ∧ r.churn_probability ≤ 1 ∧
          0 ≤ r.confidence ∧ r.confidence ≤ 1) := by
  refine ⟨predict_churn_eq st c m v hm hv, predict_on_stub, ?_⟩
  intro h0 h1 h2 h3 r hr
  rw [predict_churn_eq st c m v hm hv] at hr
  simp at hr
  subst hr
  refine ⟨h2, h3, ?_, ?_⟩
  · exact le_trans h0 (le_max_left _ _)
  · exact max_le h1 h3

/-- Witness for C1: the stub model on the spec's sample record. -/
theorem C1_inference_witness :
    predict_churn stubState sampleCustomer = .ok
      { churn_prediction := true, churn_probability := 7/10,
        confidence := 7/10, model_version := "1.0.0" } := by
  obtain ⟨v, hv⟩ : ∃ v, prepare_features stubState sampleCustomer
      = Except.ok v := ⟨_, rfl⟩
  exact (C1_inference stubState sampleCustomer stubModel v rfl hv).2.1

/-- C2 counterexample: under the Absent state (no preprocessing
metadata loaded), the assembled vector for a concrete valid record has
length 12, not 11 as claimed — the fallback order lists twelve
features. -/
theorem C2_counterexample :
    (prepare_features initialState sampleCustomer).toOption.map List.length
        = some 12 ∧ (12 : ℕ) ≠ 11 := by
  constructor
  · rfl
  · decide

/-- C2 (amended): for every validated record, a vector successfully
assembled under a truthy (non-empty) `feature_columns` has length equal
to that of `feature_columns`, and a vector assembled with no
preprocessing metadata (`feature_columns` and `scaler` both absent) has
length exactly 12. -/
theorem C2_vector_length (st : GlobalState) (c : CustomerData) (v : List ℚ)
    (_hval : c.validated) :
    (∀ cols, st.feature_columns = some cols → cols ≠ [] →
      prepare_features st c = .ok v → v.length = cols.length) ∧
    (st.feature_columns = none → st.scaler = none →
      prepare_features st c = .ok v → v.length = 12) := by
  constructor
  · intro cols hcols hne hok
    unfold prepare_features at hok
    cases hfm : features_map st c with
    | error e => rw [hfm] at hok; simp at hok
    | ok features =>
      rw [hfm, hcols] at hok
      have hie : cols.isEmpty = false := by
        simpa [List.isEmpty_iff] using hne
      simp only [hie, Bool.false_eq_true, if_false] at hok
      cases hla : lookupAll features cols with
      | error e => rw [hla] at hok; simp at hok
      | ok arr =>
        rw [hla] at hok
        have harr := lookupAll_length features cols arr hla
        cases hsc : st.scaler with
        | none => rw [hsc] at hok; simp at hok; subst hok; exact harr
        | some sc =>
          rw [hsc] at hok
          simp at hok
          rw [transform_length sc arr v hok, harr]
  · intro hcols hsc hok
    unfold prepare_features at hok
    cases hfm : features_map st c with
    | error e => rw [hfm] at hok; simp at hok
    | ok features =>
      rw [hfm, hcols, hsc] at hok
      simp at hok
      cases hla : lookupAll features fallbackOrder with
      | error e => rw [hla] at hok; simp at hok
      | ok arr =>
        rw [hla] at hok
        simp at hok
        subst hok
        rw [lookupAll_length features fallbackOrder arr hla]
        rfl

/-- Witness for C2 (amended): a state whose `feature_columns` is the
training-side twelve-name list yields a vector of that length. -/
theorem C2_vector_length_witness :
    ∃ v : List ℚ, prepare_features colsState sampleCustomer = .ok v ∧
      v.length = fallbackOrder.length :=
  ⟨_, rfl, (C2_vector_length colsState sampleCustomer _ (by decide)).1
    fallbackOrder rfl (by decide) rfl⟩

/-- C3: encoder-backed (Full) assembly and fallback (Absent) assembly
produce identical vectors whenever the fitted encoders assign the
record's values the same codes as the fallback tables and the
feature_columns order is the built-in fallback order (the comparison is
at the assembly stage of the pipeline, before optional scaling, which
the spec treats as a separate step). -/
theorem C3_path_equivalence (c : CustomerData) (le : LabelEncoders)
    (kc kp ki : ℚ) (_hval : c.validated)
    (hc : le.contract.transform c.contract_type = some kc)
    (hp : le.payment.transform c.payment_method = some kp)
    (hi : le.internet.transform c.internet_service = some ki)
    (hc2 : kc = (List.lookup c.contract_type contract_mapping).getD 0)
    (hp2 : kp = (List.lookup c.payment_method payment_mapping).getD 0)
    (hi2 : ki = (List.lookup c.internet_service internet_mapping).getD 0) :
    prepare_features
        { model := none, scaler := none,
          feature_columns := some fallbackOrder, label_encoders := some le }
        c
      = prepare_features initialState c := by
  subst hc2; subst hp2; subst hi2
  unfold prepare_features features_map encodedFeatures
  dsimp only
  rw [hc, hp, hi]
  rfl

/-- Witness for C3: encoders that agree with the fallback tables on the
sample record's values give the same vector as the Absent path. -/
theorem C3_path_equivalence_witness :
    prepare_features
        { model := none, scaler := none,
          feature_columns := some fallbackOrder,
          label_encoders :=
            some { contract := contract_mapping, payment := payment_mapping,
                   internet := internet_mapping } }
        sampleCustomer
      = prepare_features initialState sampleCustomer := by
  exact C3_path_equivalence sampleCustomer _ 0 0 1 (by decide)
    rfl rfl rfl rfl rfl rfl

/-- C4: in the features dict that `prepare_features` builds,
tenure_monthly_ratio is exactly tenure/monthly_charges and
total_monthly_ratio is exactly total_charges/monthly_charges whenever
monthly_charges > 0, and both are exactly 0 whenever
monthly_charges ≤ 0. -/
theorem C4_ratio_features (st : GlobalState) (c : CustomerData)
    (fs : List (String × ℚ)) (_hval : c.validated)
    (h : features_map st c = .ok fs) :
    (0 < c.monthly_charges →
      List.lookup "tenure_monthly_ratio" fs =
          some ((c.tenure : ℚ) / c.monthly_charges) ∧
        List.lookup "total_monthly_ratio" fs =
          some (c.total_charges / c.monthly_charges)) ∧
    (c.monthly_charges ≤ 0 →
      List.lookup "tenure_monthly_ratio" fs = some 0 ∧
        List.lookup "total_monthly_ratio" fs = some 0) := by
  unfold features_map at h
  cases he : encodedFeatures st.label_encoders c with
  | error e => rw [he] at h; simp [Except.map] at h
  | ok enc =>
    rw [he] at h
    simp [Except.map] at h
    subst h
    constructor
    · intro hpos
      constructor <;> simp [baseFeatures, List.lookup, hpos]
    · intro hle
      have hneg : ¬ 0 < c.monthly_charges := not_lt.mpr hle
      constructor <;> simp [baseFeatures, List.lookup, hneg]

/-- Witness for C4 at the concrete sample record (monthly_charges = 50)
under the Absent state. -/
theorem C4_ratio_features_witness :
    ∃ fs, features_map initialState sampleCustomer = Except.ok fs ∧
      List.lookup "tenure_monthly_ratio" fs =
        some ((sampleCustomer.tenure : ℚ) / sampleCustomer.monthly_charges) ∧
      List.lookup "total_monthly_ratio" fs =
        some (sampleCustomer.total_charges / sampleCustomer.monthly_charges) := by
  refine ⟨_, rfl, ?_⟩
  exact (C4_ratio_features initialState sampleCustomer _ (by decide) rfl).1
    (by norm_num [sampleCustomer])

/-- C5: under the Full state, a record whose contract_type,
payment_method or internet_service value is outside the corresponding
fitted encoder's known set makes `prepare_features` fail with the
feature-preparation error — no default code is substituted. -/
theorem C5_unknown_label_fails (st : GlobalState) (c : CustomerData)
    (le : LabelEncoders) (hle : st.label_encoders = some le)
    (hout : le.contract.transform c.contract_type = none ∨
      le.payment.transform c.payment_method = none ∨
      le.internet.transform c.internet_service = none) :
    prepare_features st c = .error "Feature preparation error: unseen label" := by
  unfold prepare_features features_map encodedFeatures
  rw [hle]
  dsimp only
  cases h1 : le.contract.transform c.contract_type with
  | none =>
    cases h2 : le.payment.transform c.payment_method <;>
      cases h3 : le.internet.transform c.internet_service <;> rfl
  | some kc =>
    cases h2 : le.payment.transform c.payment_method with
    | none => cases h3 : le.internet.transform c.internet_service <;> rfl
    | some kp =>
      cases h3 : le.internet.transform c.internet_service with
      | none => rfl
      | some ki =>
        rcases hout with h | h | h
        · rw [h1] at h; cases h
        · rw [h2] at h; cases h
        · rw [h3] at h; cases h

/-- Witness for C5: with the fallback tables fitted as encoders, the
contract value "Half year" is out of domain and preparation fails. -/
theorem C5_unknown_label_fails_witness :
    prepare_features
        { model := none, scaler := none, feature_columns := none,
          label_encoders :=
            some { contract := contract_mapping, payment := payment_mapping,
                   internet := internet_mapping } }
        { sampleCustomer with contract_type := "Half year" }
      = .error "Feature preparation error: unseen label" := by
  exact C5_unknown_label_fails _ _ _ rfl (Or.inl rfl)

/-- C6: under the Absent state the categorical codes come from the
fixed fallback tables — Month-to-month 0 / One year 1 / Two year 2;
Electronic check 0 / Mailed check 1 / Bank transfer 2 / Credit card 3;
No 0 / DSL 1 / Fiber optic 2 — every other string coding silently to 0;
in particular the record (Month-to-month, Electronic check, No) gets
contract_encoded 0, payment_encoded 0 and has_internet 0. -/
theorem C6_fallback_tables :
    (∀ c : CustomerData,
      vecEntry (prepare_features initialState c) 9 =
        some (if c.contract_type = "Month-to-month" then 0
          else if c.contract_type = "One year" then 1
          else if c.contract_type = "Two year" then 2 else 0) ∧
      vecEntry (prepare_features initialState c) 10 =
        some (if c.payment_method = "Electronic check" then 0
          else if c.payment_method = "Mailed check" then 1
          else if c.payment_method = "Bank transfer" then 2
          else if c.payment_method = "Credit card" then 3 else 0) ∧
      vecEntry (prepare_features initialState c) 11 =
        some (if c.internet_service = "No" then 0
          else if c.internet_service = "DSL" then 1
          else if c.internet_service = "Fiber optic" then 2 else 0)) ∧
    (vecEntry (prepare_features initialState fallbackSample) 9 = some 0 ∧
      vecEntry (prepare_features initialState fallbackSample) 10 = some 0 ∧
      vecEntry (prepare_features initialState fallbackSample) 6 = some 0) := by
  constructor
  · intro c
    rw [prepare_features_absent initialState c rfl rfl rfl]
    refine ⟨?_, ?_, ?_⟩
    · simp only [vecEntry, List.get?, contract_mapping, List.lookup]
      by_cases h1 : c.contract_type = "Month-to-month" <;>
        by_cases h2 : c.contract_type = "One year" <;>
        by_cases h3 : c.contract_type = "Two year" <;>
        simp [beq_eq_decide, h1, h2, h3]
    · simp only [vecEntry, List.get?, payment_mapping, List.lookup]
      by_cases h1 : c.payment_method = "Electronic check" <;>
        by_cases h2 : c.payment_method = "Mailed check" <;>
        by_cases h3 : c.payment_method = "Bank transfer" <;>
        by_cases h4 : c.payment_method = "Credit card" <;>
        simp [beq_eq_decide, h1, h2, h3, h4]
    · simp only [vecEntry, List.get?, internet_mapping, List.lookup]
      by_cases h1 : c.internet_service = "No" <;>
        by_cases h2 : c.internet_service = "DSL" <;>
        by_cases h3 : c.internet_service = "Fiber optic" <;>
        simp [beq_eq_decide, h1, h2, h3]
  · refine ⟨?_, ?_, ?_⟩ <;> rfl

/-- C7: load() is total and fails soft — every erroneous outcome of the
two load attempts yields the result false instead of a propagated
exception — and whenever no model is loaded the health endpoint reports
model_loaded = false and every inference request is rejected with the
model-unavailable error. -/
theorem C7_fails_soft :
    (∀ (st : GlobalState) (env : LoadEnv), loadFails env = true →
      (load_model st env).2 = false) ∧
    (∀ (st : GlobalState) (c : CustomerData), st.model = none →
      (health_check st).model_loaded = false ∧
        predict_churn st c = .error "Model not loaded") := by
  constructor
  · intro st env h
    unfold loadFails at h
    unfold load_model
    by_cases hf : env.fullExists
    · rw [if_pos hf] at h ⊢
      cases hb : env.fullBundle with
      | error e => rfl
      | ok bd =>
        rw [hb] at h
        obtain ⟨bm, bs, bf, bl⟩ := bd
        dsimp only at h ⊢
        cases bm with
        | none => rfl
        | some m =>
          cases bs with
          | none => rfl
          | some sc =>
            cases bf with
            | none => rfl
            | some fc =>
              cases bl with
              | none => rfl
              | some le => simp at h
    · rw [if_neg hf] at h ⊢
      cases hs : env.simpleModel with
      | error e => rfl
      | ok m => rw [hs] at h; simp at h
  · intro st c hm
    constructor
    · simp [health_check, hm]
    · unfold predict_churn
      rw [hm]

/-- Witness for C7: with both layouts unreadable, loading reports
failure; in the resulting empty state the health endpoint says
model_loaded = false and prediction is rejected. -/
theorem C7_fails_soft_witness :
    (load_model initialState corruptEnv).2 = false ∧
      (health_check initialState).model_loaded = false ∧
      predict_churn initialState sampleCustomer = .error "Model not loaded" :=
  ⟨C7_fails_soft.1 initialState corruptEnv rfl,
    (C7_fails_soft.2 initialState sampleCustomer rfl).1,
    (C7_fails_soft.2 initialState sampleCustomer rfl).2⟩

/-- C8 counterexample: a full-layout bundle containing the model slot
but missing the scaler slot makes load() report failure while leaving
the model global populated and the other three globals empty — a
partially initialized snapshot after a reported failure, contradicting
the claim. -/
theorem C8_counterexample :
    (load_model initialState partialEnv).2 = false ∧
      (load_model initialState partialEnv).1.model.isSome = true ∧
      (load_model initialState partialEnv).1.scaler = none ∧
      (load_model initialState partialEnv).1.feature_columns = none ∧
      (load_model initialState partialEnv).1.label_encoders = none :=
  ⟨rfl, rfl, rfl, rfl, rfl⟩

/-- C8 (amended): a load failure that occurs before the first global
assignment — the full-layout file unreadable, its bundle lacking the
model slot, or the simple-layout read failing — leaves the snapshot
exactly as it was, so no field is populated; but a failure after the
model slot was read can leave the snapshot partially initialized. -/
theorem C8_no_partial_before_assign (st : GlobalState) (env : LoadEnv)
    (h : failsBeforeAssign env = true) :
    load_model st env = (st, false) := by
  unfold failsBeforeAssign at h
  unfold load_model
  by_cases hf : env.fullExists
  · rw [if_pos hf] at h ⊢
    cases hb : env.fullBundle with
    | error e => rfl
    | ok bd =>
      rw [hb] at h
      obtain ⟨bm, bs, bf, bl⟩ := bd
      dsimp only at h ⊢
      cases bm with
      | none => rfl
      | some m => simp at h
  · rw [if_neg hf] at h ⊢
    cases hs : env.simpleModel with
    | error e => rfl
    | ok m => rw [hs] at h; simp at h

/-- Witness for C8 (amended): an unreadable simple-layout file leaves
the initial state untouched. -/
theorem C8_no_partial_before_assign_witness :
    load_model initialState
        { fullExists := false, fullBundle := .error "unused",
          simpleModel := .error "file missing" }
      = (initialState, false) :=
  C8_no_partial_before_assign initialState _ rfl

/-- C9: with the snapshot fixed, `prepare_features` is deterministic and
depends only on the fields it reads (tenure, monthly_charges,
total_charges, contract_type, payment_method, internet_service,
customer_service_calls): two invocations on records agreeing on those
fields — in particular two invocations on the same record — return
bit-identical vectors. -/
theorem C9_purity (st : GlobalState) (c c' : CustomerData)
    (h1 : c.tenure = c'.tenure)
    (h2 : c.monthly_charges = c'.monthly_charges)
    (h3 : c.total_charges = c'.total_charges)
    (h4 : c.contract_type = c'.contract_type)
    (h5 : c.payment_method = c'.payment_method)
    (h6 : c.internet_service = c'.internet_service)
    (h7 : c.customer_service_calls = c'.customer_service_calls) :
    prepare_features st c = prepare_features st c' := by
  unfold prepare_features
  rw [features_map_congr st c c' h1 h2 h3 h4 h5 h6 h7]

/-- Witness for C9 at concrete inputs: two records that differ only in
the unread `streaming_tv` field yield the same vector. -/
theorem C9_purity_witness :
    prepare_features initialState sampleCustomer =
      prepare_features initialState
        { sampleCustomer with streaming_tv := "Yes" } := by
  exact C9_purity initialState _ _ rfl rfl rfl rfl rfl rfl rfl

/-- C10: the health endpoint always answers with status string
"healthy" — also in the degraded no-model state — and its
`model_loaded` flag is true exactly when a model object is present in
the snapshot. -/
theorem C10_health (st : GlobalState) :
    (health_check st).status = "healthy" ∧
      ((health_check st).model_loaded = true ↔ ∃ m, st.model = some m) := by
  refine ⟨rfl, ?_⟩
  simp [health_check, Option.isSome_iff_exists]

end Churn
